import Mathlib

/-!
Verification of the PyFluss Python client (Fluss-python-py4j).

This file gives a shallow embedding of the pure logic of the Python
sources under `src/pyfluss/` and proves or refutes the frozen claims
about the natural-language specification.  Each embedded definition is
translated from the Python function named in its doc comment; stateful
code is modelled by explicit state passing, remote (Py4J) calls by
environment records recording the values and failures the remote side
may produce, and fallible code by `Except`.
-/

/-! ## Python string primitives

Python `str` values are modelled by Lean `String` (whose `data` field is
the list of characters).  The helpers below model the exact Python
string operations the sources use: `sep.join`, `s.split(sep)`,
`s.lower()`, `s.upper()`, `s.startswith(p)` and the substring test
`p in s`.
-/

/-- Model of Python `s.split(sep)` for a one-character separator:
split on every occurrence of the separator, keeping empty pieces. -/
def pySplitOn (s : String) (sep : Char) : List String :=
  (s.data.splitOn sep).map String.mk

/-- Model of Python `sep.join(xs)` for a one-character separator. -/
def pyJoinOn (sep : Char) (xs : List String) : String :=
  String.mk ([sep].intercalate (xs.map String.data))

/-- Model of Python `s.lower()` (ASCII case folding, as used by the
sources on ASCII type names). -/
def pyLower (s : String) : String :=
  String.mk (s.data.map Char.toLower)

/-- Model of Python `s.upper()` (ASCII case folding, as used by the
sources on ASCII type names). -/
def pyUpper (s : String) : String :=
  String.mk (s.data.map Char.toUpper)

/-- Model of Python `s.startswith(p)`. -/
def pyStartsWith (s p : String) : Bool :=
  p.data.isPrefixOf s.data

/-- Model of the Python substring test `p in s`: `p.data` occurs as a
contiguous infix of `s.data`. -/
def pyContains (s p : String) : Bool :=
  decide (p.data <:+: s.data)

/-! ## C1 — remote-to-local type inference

Embedding of `_java_type_to_arrow_type` from
`src/pyfluss/py4j/util/java_utils.py` (lines 104-130).  The function
lowercases the string form of the remote type and walks an if/elif
chain of substring tests, returning the first match.
-/

/-- The local (PyArrow) column types produced by
`_java_type_to_arrow_type`. -/
inductive ArrowType where
  | int32
  | int64
  | stringType
  | float64
  | float32
  | boolType
  | timestampUs
  | date32
  | decimal128Default
  | binaryType
deriving DecidableEq, Repr

/-- Embedding of `_java_type_to_arrow_type(j_data_type)`
(`src/pyfluss/py4j/util/java_utils.py:104`): `type_str = str(j_data_type).lower()`
followed by the if/elif substring chain in source order.  The argument
is the string form `str(j_data_type)` of the remote type. -/
def javaTypeToArrowType (jTypeStr : String) : ArrowType :=
  let typeStr := pyLower jTypeStr
  if pyContains typeStr "int" then ArrowType.int32
  else if pyContains typeStr "bigint" then ArrowType.int64
  else if pyContains typeStr "string" || pyContains typeStr "varchar" then ArrowType.stringType
  else if pyContains typeStr "double" then ArrowType.float64
  else if pyContains typeStr "float" then ArrowType.float32
  else if pyContains typeStr "boolean" then ArrowType.boolType
  else if pyContains typeStr "timestamp" then ArrowType.timestampUs
  else if pyContains typeStr "date" then ArrowType.date32
  else if pyContains typeStr "decimal" then ArrowType.decimal128Default
  else if pyContains typeStr "bytes" || pyContains typeStr "binary" then ArrowType.binaryType
  else ArrowType.stringType

/-! ## C2 — retry wrapper

Embedding of `FlussConnection._handle_async_operation_with_retry` from
`src/pyfluss/connection.py` (lines 496-520).  The operation function is
modelled as a map from the attempt index to an `Except` outcome (the
combined effect of `operation_func()` and `_handle_async_operation`).
The embedding records, besides the final outcome, how many times the
operation was invoked and the list of sleep durations (in seconds)
performed between attempts.
-/

/-- Outcome of the retry wrapper: the final result, the number of times
the operation was invoked, and the sleeps (seconds) performed between
consecutive attempts, in order.  A final error carries the `max_retries`
count and the last underlying exception, mirroring
`RuntimeError(f"Async operation failed after {max_retries} attempts. Last error: {last_exception}")`. -/
structure RetryOutcome (eps alpha : Type) where
  result : Except (Nat × Option eps) alpha
  calls : Nat
  sleeps : List Nat
deriving Repr

/-- The `for attempt in range(max_retries)` loop body of
`_handle_async_operation_with_retry`: on success return immediately; on
failure record the exception, sleep `1 * (attempt + 1)` seconds if the
attempt is not the last one, and continue. -/
def retryLoop (op : Nat → Except eps alpha) (maxRetries : Nat) :
    List Nat → Option eps → RetryOutcome eps alpha
  | [], lastException => ⟨Except.error (maxRetries, lastException), 0, []⟩
  | attempt :: rest, _ =>
    match op attempt with
    | Except.ok a => ⟨Except.ok a, 1, []⟩
    | Except.error e =>
      let r := retryLoop op maxRetries rest (some e)
      ⟨r.result, r.calls + 1,
        (if attempt < maxRetries - 1 then [1 * (attempt + 1)] else []) ++ r.sleeps⟩

/-- Embedding of `_handle_async_operation_with_retry(operation_func,
max_retries=3, timeout=30)` (`src/pyfluss/connection.py:496`): run the
loop over `range(max_retries)` starting with `last_exception = None`. -/
def handleAsyncOperationWithRetry (op : Nat → Except eps alpha)
    (maxRetries : Nat := 3) : RetryOutcome eps alpha :=
  retryLoop op maxRetries (List.range maxRetries) none

/-! ## C3 — table path parsing in create_writer / create_reader

Embedding of `FlussConnection.create_writer` (lines 158-185) and
`FlussConnection.create_reader` (lines 187-218) of
`src/pyfluss/connection.py`, up to the point where the remote
`connection.getTable(database_name, table_name)` call would be issued.
A successful parse returns the `(database_name, table_name)` pair that
is passed to the remote call; an error means the method raises before
any remote call is made.
-/

/-- The path-splitting step shared by `create_writer` and
`create_reader`: `parts = table_path.split('.')`, two parts are
`database.table`, three parts are `catalog.database.table` (catalog
dropped), anything else raises `ValueError`. -/
def parseTablePathParts (tablePath : String) : Except String (String × String) :=
  match pySplitOn tablePath '.' with
  | [databaseName, tableName] => Except.ok (databaseName, tableName)
  | [_, databaseName, tableName] => Except.ok (databaseName, tableName)
  | _ => Except.error ("Invalid table path format: " ++ tablePath)

/-- Embedding of `create_writer(table_path)`: after
`_ensure_connected()` (a local flag check raising `ConnectionError`
when not connected), parse the path; on success the pair is handed to
the remote `getTable` call. -/
def createWriter (isConnected : Bool) (tablePath : String) :
    Except String (String × String) :=
  if isConnected then parseTablePathParts tablePath
  else Except.error "Not connected to Fluss. Call connect() first."

/-- Embedding of `create_reader(table_path, **kwargs)`: identical path
handling to `create_writer`. -/
def createReader (isConnected : Bool) (tablePath : String) :
    Except String (String × String) :=
  if isConnected then parseTablePathParts tablePath
  else Except.error "Not connected to Fluss. Call connect() first."

/-! ## C4 — primary-key metadata round trip

Embedding of `ArrowSchema.with_primary_keys` (lines 331-353) and
`ArrowSchema.get_primary_keys` (lines 193-209) of
`src/pyfluss/api/schema.py`.  A PyArrow schema is modelled as its list
of fields (name, type string form, nullability) plus its metadata
dictionary; metadata byte strings are modelled as `String` (the UTF-8
encode/decode pair in the source is lossless).
-/

/-- One field of a PyArrow schema: name, string form of the Arrow type,
and nullability. -/
structure ArrowField where
  name : String
  typeTag : String
  nullable : Bool
deriving DecidableEq, Repr

/-- A PyArrow schema: ordered fields plus the schema-level metadata
dictionary (association list in insertion order, models a Python dict
of bytes keys/values). -/
structure PyArrowSchema where
  fields : List ArrowField
  metadata : List (String × String)
deriving DecidableEq, Repr

/-- `ArrowSchema.get_field_names`: `self._arrow_schema.names`. -/
def getFieldNames (s : PyArrowSchema) : List String :=
  s.fields.map (fun f => f.name)

/-- Python `dict.get(k)` on the metadata dictionary. -/
def metaGet (m : List (String × String)) (k : String) : Option String :=
  (m.find? (fun p => p.1 == k)).map (fun p => p.2)

/-- Python `d[k] = v` on the metadata dictionary: overwrite an existing
binding in place, otherwise append a new one. -/
def metaPut (m : List (String × String)) (k v : String) :
    List (String × String) :=
  if m.any (fun p => p.1 == k) then
    m.map (fun p => if p.1 == k then (k, v) else p)
  else m ++ [(k, v)]

/-- The fixed metadata key used for primary keys (`b'primary_keys'`). -/
def primaryKeysMetaKey : String := "primary_keys"

/-- Embedding of `ArrowSchema.with_primary_keys(primary_keys)`
(`src/pyfluss/api/schema.py:331`): validate that every primary key is a
declared field name (raising `ValueError` at the first missing one),
then store the comma-joined key list under the fixed metadata key via
`Schema.with_metadata`, which replaces the schema metadata and leaves
the fields untouched. -/
def withPrimaryKeys (s : PyArrowSchema) (primaryKeys : List String) :
    Except String PyArrowSchema :=
  match primaryKeys.find? (fun pk => !((getFieldNames s).contains pk)) with
  | some pk => Except.error ("Primary key field " ++ pk ++ " not found in schema")
  | none =>
    Except.ok { s with
      metadata := metaPut s.metadata primaryKeysMetaKey (pyJoinOn ',' primaryKeys) }

/-- Embedding of `ArrowSchema.get_primary_keys()`
(`src/pyfluss/api/schema.py:193`): if the schema has (truthy, i.e.
non-empty) metadata and a truthy value under the fixed key, decode it
and split on commas; otherwise `None`. -/
def getPrimaryKeys (s : PyArrowSchema) : Option (List String) :=
  if s.metadata.isEmpty then none
  else
    match metaGet s.metadata primaryKeysMetaKey with
    | none => none
    | some pkStr =>
      if pkStr.data.isEmpty then none else some (pySplitOn pkStr ',')

/-! ## C5 — connection close()

Embedding of `FlussConnection.close` from `src/pyfluss/connection.py`
(lines 110-139).  The connection object state keeps, for each handle
attribute, whether it is currently set (non-None), plus the
`_is_connected` flag.  The unreliable external teardown calls
(`gateway.shutdown()`, and the `terminate()`/`wait(timeout=5)` pair on
the Java process) are modelled by an environment of failure flags; the
`_java_connection.close()` call sits in its own bare try/except whose
failure has no observable effect, so it needs no flag.
-/

/-- The handle attributes of a `FlussConnection`: `true` means the
attribute is set (non-None). -/
structure ConnState where
  javaConnection : Bool
  gateway : Bool
  javaProcess : Bool
  javaApp : Bool
  isConnected : Bool
deriving DecidableEq, Repr

/-- Failure behaviour of the external teardown calls during `close()`:
whether `self._gateway.shutdown()` raises, and whether
`self._java_process.terminate()` or the bounded
`self._java_process.wait(timeout=5)` raises (both leave the process
handle set, so one flag covers them). -/
structure CloseEnv where
  gatewayShutdownFails : Bool
  processStopFails : Bool
deriving DecidableEq, Repr

/-- The tail of the `close()` try block: terminate and wait for the
Java process if present (a raise aborts here, keeping the handle), then
`self._java_app = None; self._is_connected = False`. -/
def closeProcessPart (env : CloseEnv) (s : ConnState) : Bool × ConnState :=
  if s.javaProcess then
    if env.processStopFails then (true, s)
    else (false, { s with javaProcess := false, javaApp := false, isConnected := false })
  else (false, { s with javaApp := false, isConnected := false })

/-- The body of the outer try block of `close()`: first the inner
try/except around `self._java_connection.close()` (every failure
swallowed, the attribute then set to None), then `gateway.shutdown()`
(a raise aborts with the gateway handle still set), then the process
teardown.  The returned `Bool` is whether the body raised. -/
def closeBody (env : CloseEnv) (s : ConnState) : Bool × ConnState :=
  let s1 := if s.javaConnection then { s with javaConnection := false } else s
  if s1.gateway then
    if env.gatewayShutdownFails then (true, s1)
    else closeProcessPart env { s1 with gateway := false }
  else closeProcessPart env s1

/-- Embedding of `FlussConnection.close()`
(`src/pyfluss/connection.py:110`): return immediately when
`_is_connected` is false; otherwise run the body, whose exception (if
any) is caught and logged by the outer except clause, so `close()`
always returns normally with the state the body reached. -/
def connClose (env : CloseEnv) (s : ConnState) : ConnState :=
  if s.isConnected then (closeBody env s).2 else s

/-- `n` successive calls of `close()` on the same connection. -/
def connCloseN (env : CloseEnv) : Nat → ConnState → ConnState
  | 0, s => s
  | n + 1, s => connCloseN env n (connClose env s)

/-! ## C6 — defensive list conversion in list_databases / list_tables

Embedding of `FlussConnection.list_databases` (lines 387-421) and
`FlussConnection.list_tables` (lines 423-460) of
`src/pyfluss/connection.py`.  The remote collection returned by the
retry-wrapped admin call is modelled by the list of its string elements
plus failure flags for each stage: the retry-wrapped call itself, the
iterator-style walk, and the direct-iteration fallback.
-/

/-- Remote behaviour for one admin list call: the elements of the
returned collection, and whether each stage raises. -/
structure AdminListEnv where
  items : List String
  opFails : Bool
  iteratorFails : Bool
  directIterFails : Bool
deriving Repr

/-- The collection-to-list conversion inside the admin list methods:
prefer the `iterator()` walk; on failure fall back to direct iteration
(`[str(x) for x in c]`); on failure of that too, log and use `[]`. -/
def collectionToPyList (env : AdminListEnv) : List String :=
  if env.iteratorFails then
    if env.directIterFails then [] else env.items
  else env.items

/-- The try-block body of `list_databases()` before the outer except:
the retry-wrapped `admin.listDatabases()` call (whose failure
propagates to the outer except) followed by the defensive conversion. -/
def listDatabasesBody (env : AdminListEnv) : Except Unit (List String) :=
  if env.opFails then Except.error ()
  else Except.ok (collectionToPyList env)

/-- Embedding of `FlussConnection.list_databases()`
(`src/pyfluss/connection.py:387`): the whole body is wrapped in
try/except; any escaping failure is logged and `[]` is returned. -/
def listDatabases (env : AdminListEnv) : List String :=
  match listDatabasesBody env with
  | Except.ok l => l
  | Except.error _ => []

/-- Embedding of `FlussConnection.list_tables(database_name)`
(`src/pyfluss/connection.py:423`): identical structure to
`list_databases`, with the database name only naming the remote call. -/
def listTables (_databaseName : String) (env : AdminListEnv) : List String :=
  match listDatabasesBody env with
  | Except.ok l => l
  | Except.error _ => []

/-! ## C7 — local-to-remote type mapping

Embedding of `FlussConnection._map_type_to_fluss_datatype` from
`src/pyfluss/connection.py` (lines 632-673): uppercase the type tag,
then an if/elif chain of exact membership tests, prefix tests for
`TIMESTAMP`/`DECIMAL` (with a regex extracting decimal precision and
scale), and a default `STRING` branch for everything else.
-/

/-- The remote Fluss data types produced by
`_map_type_to_fluss_datatype` (constructors of
`com.alibaba.fluss.types.DataTypes`). -/
inductive FlussDataType where
  | STRING
  | BIGINT
  | INT
  | DOUBLE
  | FLOAT
  | BOOLEAN
  | TIMESTAMP (precision : Nat)
  | DECIMAL (precision scale : Nat)
deriving DecidableEq, Repr

/-- Value of a decimal digit string, as Python `int(...)`. -/
def digitsToNat (ds : List Char) : Nat :=
  ds.foldl (fun acc c => acc * 10 + (c.toNat - '0'.toNat)) 0

/-- The regex match `re.match(r'DECIMAL\((\d+),?\s*(\d+)?\)', col_type)`
on the uppercased tag, returning the precision and the scale (scale 0
when the optional second group is absent).  The regex is a prefix
match; trailing text after the closing parenthesis is ignored.  The
greedy digit and whitespace runs of the regex are deterministic here
because a shorter run would leave a digit or space where the next
pattern element demands otherwise. -/
def parseDecimalArgs (t : String) : Option (Nat × Nat) :=
  if pyStartsWith t "DECIMAL(" then
    let rest := t.data.drop 8
    let d1 := rest.takeWhile Char.isDigit
    let r1 := rest.dropWhile Char.isDigit
    if d1.isEmpty then none
    else
      let r2 := match r1 with
        | ',' :: tl => tl
        | other => other
      let r3 := r2.dropWhile Char.isWhitespace
      let d2 := r3.takeWhile Char.isDigit
      let r4 := r3.dropWhile Char.isDigit
      match r4 with
      | ')' :: _ => some (digitsToNat d1, if d2.isEmpty then 0 else digitsToNat d2)
      | _ => none
  else none

/-- Embedding of `_map_type_to_fluss_datatype(col_type)`
(`src/pyfluss/connection.py:632`): `col_type = col_type.upper()`, then
the if/elif chain in source order; unknown tags are logged and default
to `STRING`. -/
def mapTypeToFlussDatatype (colType : String) : FlussDataType :=
  let t := pyUpper colType
  if t ∈ ["STRING", "VARCHAR"] then FlussDataType.STRING
  else if t ∈ ["INT64", "BIGINT", "LONG"] then FlussDataType.BIGINT
  else if t ∈ ["INT32", "INT", "INTEGER"] then FlussDataType.INT
  else if t ∈ ["FLOAT64", "DOUBLE", "FLOAT"] then FlussDataType.DOUBLE
  else if t ∈ ["FLOAT32"] then FlussDataType.FLOAT
  else if t ∈ ["BOOL", "BOOLEAN"] then FlussDataType.BOOLEAN
  else if pyStartsWith t "TIMESTAMP" then FlussDataType.TIMESTAMP 3
  else if pyStartsWith t "DECIMAL" then
    match parseDecimalArgs t with
    | some (p, sc) => FlussDataType.DECIMAL p sc
    | none => FlussDataType.DECIMAL 10 2
  else FlussDataType.STRING

/-! ## C8 — max-workers admission

Embedding of `FlussTableRead._get_max_workers` from
`src/pyfluss/py4j/java_implementation.py` (lines 336-342) and its only
caller, the `FlussTableRead.__init__` call that passes the returned
count to `createParallelBytesReader` (line 289).  Catalog options are
an association list from option keys to already-parsed integer values
(`int(...)` of the stored value).
-/

/-- `constants.MAX_WORKERS` from
`src/pyfluss/py4j/util/constants.py`. -/
def MAX_WORKERS_KEY : String := "max-workers"

/-- Python `catalog_options.get(constants.MAX_WORKERS)` as an
`Option`. -/
def catalogLookup (opts : List (String × Int)) (k : String) : Option Int :=
  (opts.find? (fun p => p.1 == k)).map (fun p => p.2)

/-- Embedding of `FlussTableRead._get_max_workers(catalog_options)`
(`src/pyfluss/py4j/java_implementation.py:336`):
`max_workers = int(catalog_options.get(MAX_WORKERS, 1))`, rejected with
`ValueError` when `max_workers <= 0`. -/
def getMaxWorkers (catalogOptions : List (String × Int)) : Except String Int :=
  let maxWorkers := (catalogLookup catalogOptions MAX_WORKERS_KEY).getD 1
  if maxWorkers ≤ 0 then Except.error "max_workers must be greater than 0"
  else Except.ok maxWorkers

/-- The worker count `FlussTableRead.__init__` passes to
`createParallelBytesReader` (line 289): the `ValueError` from
`_get_max_workers` propagates out of the constructor, so no reader is
built on rejection. -/
def flussTableReadInitWorkers (catalogOptions : List (String × Int)) :
    Except String Int :=
  getMaxWorkers catalogOptions

/-! ## C9 — drop_database / drop_table ignore if_exists

Embedding of `FlussConnection.drop_database` (lines 522-549) and
`FlussConnection.drop_table` (lines 551-582) of
`src/pyfluss/connection.py`.  Each returns the Python boolean result
(`True` on success, `False` when the caught exception path runs)
together with the argument tuple handed to the remote drop call.
-/

/-- Embedding of `drop_database(database_name, if_exists=True)`: the
remote call is always `admin.dropDatabase(database_name, False, False)`
(cascade and ignoreIfNotExists hard-coded); `remote` is the outcome of
the retry-wrapped call.  Returns the Python result and the remote
argument tuple `(name, cascade, ignoreIfNotExists)`. -/
def dropDatabase (remote : Except String Unit) (databaseName : String)
    (_ifExists : Bool) : Bool × (String × Bool × Bool) :=
  ((match remote with
    | Except.ok _ => true
    | Except.error _ => false),
   (databaseName, false, false))

/-- Embedding of `drop_table(database_name, table_name,
if_exists=True)`: the remote call is always
`admin.dropTable(table_path, False)` with ignoreIfNotExists hard-coded.
Returns the Python result and the remote argument tuple
`((database, table), ignoreIfNotExists)`. -/
def dropTable (remote : Except String Unit) (databaseName tableName : String)
    (_ifExists : Bool) : Bool × ((String × String) × Bool) :=
  ((match remote with
    | Except.ok _ => true
    | Except.error _ => false),
   ((databaseName, tableName), false))

/-! ## C10 — closed-handle discipline of data writer / reader

Embedding of `FlussDataWriter` (`src/pyfluss/writer.py`) and
`FlussDataReader` (`src/pyfluss/reader.py`).  The object state is the
`_is_closed` flag.  Each data operation first runs `_check_not_closed`
(raising `RuntimeError` when closed) and only then reaches its
try-block with the remote call; the embedding returns the operation
outcome together with a flag recording whether the remote call was
issued.  Remote behaviour is a parameter; row conversion
(`_convert_java_result`) is abstracted into the row type.
-/

/-- `FlussDataWriter._check_not_closed` (`src/pyfluss/writer.py:144`). -/
def checkWriterNotClosed (isClosed : Bool) : Except String Unit :=
  if isClosed then Except.error "Writer has been closed" else Except.ok ()

/-- `FlussDataReader._check_not_closed` (`src/pyfluss/reader.py:144`). -/
def checkReaderNotClosed (isClosed : Bool) : Except String Unit :=
  if isClosed then Except.error "Reader has been closed" else Except.ok ()

/-- Embedding of `FlussDataWriter.write_row(data)`: closed check, then
try-block calling `writeDataWithUpsert` (result `write_count > 0`, any
exception logged and `False` returned).  Second component: whether the
remote write was issued. -/
def writeRow (isClosed : Bool) (remoteCount : Except String Int) :
    Except String Bool × Bool :=
  match checkWriterNotClosed isClosed with
  | Except.error e => (Except.error e, false)
  | Except.ok _ =>
    (Except.ok (match remoteCount with
      | Except.ok n => decide (0 < n)
      | Except.error _ => false), true)

/-- Embedding of `FlussDataWriter.write_rows(data_list)`: closed check,
then one batched `writeDataWithUpsert` call returning the written count
(0 on a caught exception). -/
def writeRows (isClosed : Bool) (remoteCount : Except String Int) :
    Except String Int × Bool :=
  match checkWriterNotClosed isClosed with
  | Except.error e => (Except.error e, false)
  | Except.ok _ =>
    (Except.ok (match remoteCount with
      | Except.ok n => n
      | Except.error _ => 0), true)

/-- Embedding of `FlussDataWriter.flush()`: closed check, then a no-op
(the Java writer has no flush method); never issues a remote call. -/
def writerFlush (isClosed : Bool) : Except String Unit × Bool :=
  match checkWriterNotClosed isClosed with
  | Except.error e => (Except.error e, false)
  | Except.ok _ => (Except.ok (), false)

/-- Embedding of `FlussDataWriter.close()`: sets `_is_closed = True` if
not already set; never raises and never clears the flag. -/
def writerClose (_isClosed : Bool) : Bool := true

/-- Embedding of `FlussDataReader.read_row()`: closed check, then a
try-block calling `readBatchData(1)`; the first converted row is
returned, `None` on an empty batch, and `None` on a caught
exception. -/
def readRow {row : Type} (isClosed : Bool)
    (remoteBatch : Except String (List row)) :
    Except String (Option row) × Bool :=
  match checkReaderNotClosed isClosed with
  | Except.error e => (Except.error e, false)
  | Except.ok _ =>
    (Except.ok (match remoteBatch with
      | Except.ok (r :: _) => some r
      | Except.ok [] => none
      | Except.error _ => none), true)

/-- Embedding of `FlussDataReader.read_rows(limit=100)`: closed check,
then a try-block calling `readBatchData(limit)`; the converted rows are
returned, `[]` on a caught exception. -/
def readRows {row : Type} (isClosed : Bool) (_limit : Int)
    (remoteBatch : Except String (List row)) :
    Except String (List row) × Bool :=
  match checkReaderNotClosed isClosed with
  | Except.error e => (Except.error e, false)
  | Except.ok _ =>
    (Except.ok (match remoteBatch with
      | Except.ok rows => rows
      | Except.error _ => []), true)

/-- The `read_all` loop: repeated `read_row()` calls on an open reader
until one returns `None`; the remote batches consumed by the successive
calls are given as a finite list (an exhausted list models the stream
end). -/
def readAllLoop {row : Type} : List (Except String (List row)) → List row
  | [] => []
  | b :: rest =>
    match (readRow false b).1 with
    | Except.ok (some r) => r :: readAllLoop rest
    | _ => []

/-- Embedding of `FlussDataReader.read_all()`: closed check (the
`RuntimeError` of the first `read_row` would surface here anyway), then
the accumulation loop. -/
def readAll {row : Type} (isClosed : Bool)
    (batches : List (Except String (List row))) :
    Except String (List row) × Bool :=
  match checkReaderNotClosed isClosed with
  | Except.error e => (Except.error e, false)
  | Except.ok _ => (Except.ok (readAllLoop batches), not batches.isEmpty)

/-- Embedding of `FlussDataReader.close()`: sets `_is_closed = True` if
not already set; never raises and never clears the flag. -/
def readerClose (_isClosed : Bool) : Bool := true

/-- The operations of a `FlussDataWriter`, for stating how each one
acts on the `_is_closed` flag. -/
inductive WriterOp where
  | writeRowOp
  | writeRowsOp
  | flushOp
  | closeOp
deriving DecidableEq, Repr

/-- Effect of each writer operation on the `_is_closed` flag: only
`close()` writes it, and only to `True`. -/
def writerStep : WriterOp → Bool → Bool
  | WriterOp.closeOp, _ => true
  | _, c => c

/-- The operations of a `FlussDataReader`, for stating how each one
acts on the `_is_closed` flag. -/
inductive ReaderOp where
  | readRowOp
  | readRowsOp
  | readAllOp
  | closeOp
deriving DecidableEq, Repr

/-- Effect of each reader operation on the `_is_closed` flag: only
`close()` writes it, and only to `True`. -/
def readerStep : ReaderOp → Bool → Bool
  | ReaderOp.closeOp, _ => true
  | _, c => c

/-! ## Helper lemmas -/

/-- If the lowercased type string contains `"bigint"` it also contains
`"int"`, because `"int"` is a contiguous infix of `"bigint"`. -/
theorem pyContains_int_of_bigint (t : String) :
    pyContains t "bigint" = true → pyContains t "int" = true := by
  intro h
  unfold pyContains at h ⊢
  have hb : "bigint".data <:+: t.data := of_decide_eq_true h
  have hi : "int".data <:+: "bigint".data := by decide
  exact decide_eq_true (hi.trans hb)

/-- Overwriting an existing binding in place makes the key find the new
value. -/
theorem find?_map_overwrite (m : List (String × String)) (k v : String)
    (h : m.any (fun p => p.1 == k) = true) :
    (m.map (fun p => if p.1 == k then (k, v) else p)).find?
      (fun p => p.1 == k) = some (k, v) := by
  induction m with
  | nil => simp at h
  | cons hd tl ih =>
    by_cases hhd : (hd.1 == k) = true
    · simp [List.find?, hhd]
    · have hhd0 : (hd.1 == k) = false := by
        cases hb : hd.1 == k
        · rfl
        · exact absurd hb hhd
      have htl : tl.any (fun p => p.1 == k) = true := by
        simpa [List.any_cons, hhd0] using h
      simp only [List.map_cons, hhd0, if_false, List.find?, Bool.false_eq_true]
      exact ih htl

/-- Appending a fresh binding makes the key find it. -/
theorem find?_append_fresh (m : List (String × String)) (k v : String)
    (h : m.any (fun p => p.1 == k) = false) :
    ((m ++ [(k, v)]).find? (fun p => p.1 == k)) = some (k, v) := by
  induction m with
  | nil => simp [List.find?]
  | cons hd tl ih =>
    have hhd : (hd.1 == k) = false := by
      cases hb : hd.1 == k
      · rfl
      · simp [List.any_cons, hb] at h
    have htl : tl.any (fun p => p.1 == k) = false := by
      simpa [List.any_cons, hhd] using h
    simp only [List.cons_append, List.find?, hhd, Bool.false_eq_true]
    exact ih htl

/-- Updating the metadata dictionary makes the key readable back. -/
theorem metaGet_metaPut (m : List (String × String)) (k v : String) :
    metaGet (metaPut m k v) k = some v := by
  unfold metaGet metaPut
  by_cases h : m.any (fun p => p.1 == k) = true
  · rw [if_pos h, find?_map_overwrite m k v h]
    rfl
  · have h0 : m.any (fun p => p.1 == k) = false := by
      cases hb : m.any (fun p => p.1 == k)
      · rfl
      · exact absurd hb h
    rw [if_neg (by simp [h0]), find?_append_fresh m k v h0]
    rfl

/-- The updated metadata dictionary is never empty. -/
theorem metaPut_isEmpty_false (m : List (String × String)) (k v : String) :
    (metaPut m k v).isEmpty = false := by
  unfold metaPut
  by_cases h : m.any (fun p => p.1 == k)
  · cases m with
    | nil => simp at h
    | cons hd tl => simp [h]
  · cases m <;> simp [h]

/-- Splitting the comma-join recovers the original list, provided the
list is non-empty and no element contains a comma. -/
theorem pySplitOn_pyJoinOn (pks : List String) (hne : pks ≠ [])
    (hnc : ∀ pk ∈ pks, ',' ∉ pk.data) :
    pySplitOn (pyJoinOn ',' pks) ',' = pks := by
  unfold pySplitOn pyJoinOn
  have hx : ∀ l ∈ pks.map String.data, ',' ∉ l := by
    intro l hl
    rcases List.mem_map.mp hl with ⟨p, hp, rfl⟩
    exact hnc p hp
  have hls : pks.map String.data ≠ [] := by
    intro h0
    exact hne (List.map_eq_nil_iff.mp h0)
  have hsplit := List.splitOn_intercalate (pks.map String.data) ',' hx hls
  have hdata : (String.mk ([','].intercalate (pks.map String.data))).data
      = [','].intercalate (pks.map String.data) := rfl
  rw [hdata, hsplit, List.map_map]
  have : (String.mk ∘ String.data) = (id : String → String) := by
    funext s
    rfl
  rw [this, List.map_id]

/-- The comma-join of a list whose head is a non-empty string is
non-empty. -/
theorem pyJoinOn_data_ne_nil (pks : List String) (hne : pks ≠ [])
    (hnc : ∀ pk ∈ pks, ',' ∉ pk.data)
    (hhead : ∀ pk ∈ pks, pk ≠ "") :
    (pyJoinOn ',' pks).data ≠ [] := by
  intro h0
  have hx : ∀ l ∈ pks.map String.data, ',' ∉ l := by
    intro l hl
    rcases List.mem_map.mp hl with ⟨p, hp, rfl⟩
    exact hnc p hp
  have hls : pks.map String.data ≠ [] := by
    intro h1
    exact hne (List.map_eq_nil_iff.mp h1)
  have hsplit := List.splitOn_intercalate (pks.map String.data) ',' hx hls
  have hdata : (pyJoinOn ',' pks).data = [','].intercalate (pks.map String.data) := rfl
  rw [← hdata, h0, List.splitOn_nil] at hsplit
  cases pks with
  | nil => exact hne rfl
  | cons p rest =>
    simp only [List.map_cons] at hsplit
    have hp : [] = p.data := by
      injection hsplit
    have hp0 : p = "" := by
      cases p with
      | mk d =>
        have hd : d = [] := hp.symm
        rw [hd]
    exact hhead p (List.mem_cons_self p rest) hp0

/-- One step of the retry loop on a failing attempt. -/
theorem retryLoop_cons_error {eps alpha : Type} (op : Nat → Except eps alpha)
    (maxRetries attempt : Nat) (rest : List Nat) (last : Option eps)
    (e : eps) (he : op attempt = Except.error e) :
    retryLoop op maxRetries (attempt :: rest) last =
      ⟨(retryLoop op maxRetries rest (some e)).result,
       (retryLoop op maxRetries rest (some e)).calls + 1,
       (if attempt < maxRetries - 1 then [1 * (attempt + 1)] else []) ++
         (retryLoop op maxRetries rest (some e)).sleeps⟩ := by
  show (match op attempt with
        | Except.ok a => (⟨Except.ok a, 1, []⟩ : RetryOutcome eps alpha)
        | Except.error e =>
          let r := retryLoop op maxRetries rest (some e)
          ⟨r.result, r.calls + 1,
           (if attempt < maxRetries - 1 then [1 * (attempt + 1)] else []) ++ r.sleeps⟩) = _
  rw [he]

/-- Behaviour of the retry loop over `range' a n` when the operation
fails on every attempt: every attempt is made, a sleep of
`1 * (attempt + 1)` seconds follows each attempt but the last, and the
final error carries the last failure. -/
theorem retryLoop_allFail {eps alpha : Type} (op : Nat → Except eps alpha)
    (errs : Nat → eps) (h : ∀ k, op k = Except.error (errs k))
    (maxRetries : Nat) :
    ∀ (n a : Nat) (last : Option eps), 1 ≤ n → a + n = maxRetries →
      retryLoop op maxRetries (List.range' a n) last =
        ⟨Except.error (maxRetries, some (errs (maxRetries - 1))), n,
         (List.range' a (n - 1)).map (fun i => 1 * (i + 1))⟩ := by
  intro n
  induction n with
  | zero => intro a last h1 _; omega
  | succ k ih =>
    intro a last _ hsum
    rw [List.range'_succ]
    cases k with
    | zero =>
      have ha : a = maxRetries - 1 := by omega
      have hnot : ¬ a < maxRetries - 1 := by omega
      rw [show List.range' (a + 1) 0 = [] from rfl]
      rw [retryLoop_cons_error op maxRetries a [] last (errs a) (h a)]
      rw [if_neg hnot]
      simp [retryLoop, ha, List.range']
    | succ k2 =>
      have hlt : a < maxRetries - 1 := by omega
      have hrec := ih (a + 1) (some (errs a)) (by omega) (by omega)
      rw [retryLoop_cons_error op maxRetries a (List.range' (a + 1) (k2 + 1))
            last (errs a) (h a)]
      rw [hrec, if_pos hlt]
      have hr : List.range' a (k2 + 1) = a :: List.range' (a + 1) k2 :=
        List.range'_succ a k2 1
      simp [hr]

/-- `close()` is idempotent for every fixed failure environment. -/
theorem connClose_idem (env : CloseEnv) (s : ConnState) :
    connClose env (connClose env s) = connClose env s := by
  cases env with
  | mk g p =>
    cases s with
    | mk a b c d e =>
      cases g <;> cases p <;> cases a <;> cases b <;> cases c <;> cases d <;>
        cases e <;> rfl

/-- Repeated `close()` collapses to a single call once at least one
call is made. -/
theorem connCloseN_succ (env : CloseEnv) (n : Nat) (s : ConnState) :
    connCloseN env (n + 1) s = connClose env s := by
  induction n generalizing s with
  | zero => rfl
  | succ k ih =>
    show connCloseN env (k + 1) (connClose env s) = connClose env s
    rw [ih (connClose env s), connClose_idem]

/-! ## Claim theorems -/

/-- Claim C1 (counterexample): the claim says a remote type whose
lowercased string form contains "bigint" maps to int64, but the source
tests the bare "int" substring first, and "bigint" contains "int", so
the remote type string "bigint" is mapped to int32, not int64. -/
theorem C1_counterexample :
    javaTypeToArrowType "bigint" = ArrowType.int32 ∧
    ArrowType.int32 ≠ ArrowType.int64 := by
  constructor
  · decide
  · decide

/-- Claim C1 (amended): every remote type whose lowercased string form
contains "int" — in particular every form containing "bigint" — is
mapped to int32 by `_java_type_to_arrow_type`; the int64 branch is
shadowed by the earlier bare "int" test and is unreachable.  (A string
form containing "int" but not "bigint" maps to int32, as the original
claim also said.) -/
theorem C1_int_substring_shadows_bigint (s : String) :
    (pyContains (pyLower s) "bigint" = true →
      javaTypeToArrowType s = ArrowType.int32) ∧
    (pyContains (pyLower s) "int" = true →
      javaTypeToArrowType s = ArrowType.int32) ∧
    javaTypeToArrowType s ≠ ArrowType.int64 := by
  have hint : pyContains (pyLower s) "bigint" = true →
      pyContains (pyLower s) "int" = true := pyContains_int_of_bigint (pyLower s)
  have hmain : pyContains (pyLower s) "int" = true →
      javaTypeToArrowType s = ArrowType.int32 := by
    intro h
    unfold javaTypeToArrowType
    simp only [h, if_true]
  refine ⟨fun h => hmain (hint h), hmain, ?_⟩
  by_cases h : pyContains (pyLower s) "int" = true
  · rw [hmain h]
    decide
  · have hb : pyContains (pyLower s) "bigint" = false := by
      cases hbb : pyContains (pyLower s) "bigint"
      · rfl
      · exact absurd (hint hbb) h
    have h0 : pyContains (pyLower s) "int" = false := by
      cases hbb : pyContains (pyLower s) "int"
      · rfl
      · exact absurd hbb h
    unfold javaTypeToArrowType
    simp only [h0, hb, Bool.false_eq_true, if_false]
    intro hcontra
    split at hcontra <;> simp_all
    split at hcontra <;> simp_all
    split at hcontra <;> simp_all
    split at hcontra <;> simp_all
    split at hcontra <;> simp_all
    split at hcontra <;> simp_all
    split at hcontra <;> simp_all
    split at hcontra <;> simp_all

/-- Witness for C1: the concrete remote type string "BIGINT" contains
"bigint" after lowercasing and is mapped to int32. -/
theorem C1_witness :
    javaTypeToArrowType "BIGINT" = ArrowType.int32 :=
  (C1_int_substring_shadows_bigint "BIGINT").1 (by decide)

/-- Claim C2: when the operation fails on every invocation,
`_handle_async_operation_with_retry` invokes it exactly `max_retries`
times (default 3), sleeps `attempt * 1` seconds between consecutive
attempts (1s, 2s, ..., (max_retries - 1)s), and then raises a
consolidated `RuntimeError` that references the last underlying
failure. -/
theorem C2_retry_exhausts_attempts {eps alpha : Type}
    (op : Nat → Except eps alpha) (errs : Nat → eps)
    (h : ∀ k, op k = Except.error (errs k))
    (maxRetries : Nat) (hm : 1 ≤ maxRetries) :
    (handleAsyncOperationWithRetry op maxRetries).calls = maxRetries ∧
    (handleAsyncOperationWithRetry op maxRetries).sleeps =
      (List.range (maxRetries - 1)).map (fun i => 1 * (i + 1)) ∧
    (handleAsyncOperationWithRetry op maxRetries).result =
      Except.error (maxRetries, some (errs (maxRetries - 1))) := by
  have hloop := retryLoop_allFail op errs h maxRetries maxRetries 0 none hm
    (by omega)
  unfold handleAsyncOperationWithRetry
  rw [List.range_eq_range', hloop]
  refine ⟨rfl, ?_, rfl⟩
  rw [List.range_eq_range']

/-- Witness for C2: a concrete operation failing on every attempt with
the default `max_retries = 3` is invoked 3 times, sleeps 1s then 2s,
and the final error wraps the third (last) failure. -/
theorem C2_witness :
    (handleAsyncOperationWithRetry (fun k => (Except.error k : Except Nat Unit))).calls = 3 ∧
    (handleAsyncOperationWithRetry (fun k => (Except.error k : Except Nat Unit))).sleeps = [1, 2] ∧
    (handleAsyncOperationWithRetry (fun k => (Except.error k : Except Nat Unit))).result =
      Except.error (3, some 2) :=
  C2_retry_exhausts_attempts (fun k => (Except.error k : Except Nat Unit))
    (fun k => k) (fun _ => rfl) 3 (by decide)

/-- Claim C3: `create_writer` and `create_reader` split the table path
on dots; exactly two parts give (database, table) = (part 1, part 2),
exactly three parts give (database, table) = (part 2, part 3) (dropping
the catalog), and any other arity raises the invalid-path `ValueError`
before any remote call is issued. -/
theorem C3_table_path_parsing (tablePath : String) :
    ((pySplitOn tablePath '.').length = 2 →
      createWriter true tablePath =
        Except.ok ((pySplitOn tablePath '.').getD 0 "",
                   (pySplitOn tablePath '.').getD 1 "") ∧
      createReader true tablePath =
        Except.ok ((pySplitOn tablePath '.').getD 0 "",
                   (pySplitOn tablePath '.').getD 1 "")) ∧
    ((pySplitOn tablePath '.').length = 3 →
      createWriter true tablePath =
        Except.ok ((pySplitOn tablePath '.').getD 1 "",
                   (pySplitOn tablePath '.').getD 2 "") ∧
      createReader true tablePath =
        Except.ok ((pySplitOn tablePath '.').getD 1 "",
                   (pySplitOn tablePath '.').getD 2 "")) ∧
    ((pySplitOn tablePath '.').length ≠ 2 →
      (pySplitOn tablePath '.').length ≠ 3 →
      createWriter true tablePath =
        Except.error ("Invalid table path format: " ++ tablePath) ∧
      createReader true tablePath =
        Except.error ("Invalid table path format: " ++ tablePath)) := by
  unfold createWriter createReader parseTablePathParts
  simp only [if_true]
  rcases hp : pySplitOn tablePath '.' with _ | ⟨a, _ | ⟨b, _ | ⟨c, _ | ⟨d, tl⟩⟩⟩⟩ <;>
    refine ⟨?_, ?_, ?_⟩ <;> intro h1 <;> first
      | (intro h2; simp_all)
      | simp_all

/-- Witness for C3: concrete two-part, three-part and malformed paths. -/
theorem C3_witness :
    (createWriter true "db.tbl" = Except.ok ("db", "tbl") ∧
     createReader true "db.tbl" = Except.ok ("db", "tbl")) ∧
    (createWriter true "cat.db.tbl" = Except.ok ("db", "tbl") ∧
     createReader true "cat.db.tbl" = Except.ok ("db", "tbl")) ∧
    (createWriter true "nodots" =
       Except.error ("Invalid table path format: " ++ "nodots") ∧
     createReader true "nodots" =
       Except.error ("Invalid table path format: " ++ "nodots")) :=
  ⟨(C3_table_path_parsing "db.tbl").1 (by decide),
   (C3_table_path_parsing "cat.db.tbl").2.1 (by decide),
   (C3_table_path_parsing "nodots").2.2 (by decide) (by decide)⟩

/-- Claim C4 (counterexample): the claim quantifies over every
primary-key list drawn from the field names, but a field name
containing a comma (allowed: it is unique and non-empty) breaks the
comma-joined encoding.  For the schema with the single field "a,b",
encoding the primary-key list ["a,b"] succeeds but decoding yields
["a", "b"], not ["a,b"]. -/
theorem C4_counterexample :
    (withPrimaryKeys ⟨[⟨"a,b", "string", true⟩], []⟩ ["a,b"]).map getPrimaryKeys =
      Except.ok (some ["a", "b"]) ∧
    some ["a", "b"] ≠ some ["a,b"] := by
  constructor
  · rfl
  · decide

/-- Claim C4 (amended): for any schema with unique, non-empty field
names and any non-empty primary-key list that is a subset of those
names, with the extra proviso that no primary-key name contains a
comma, `with_primary_keys` succeeds, `get_primary_keys` on the result
returns exactly the same list in the same order, and the schema fields
(names, order, nullability) are unchanged — only the schema metadata is
updated. -/
theorem C4_primary_key_roundtrip (s : PyArrowSchema) (pks : List String)
    (hnodup : (getFieldNames s).Nodup)
    (hnames : ∀ n ∈ getFieldNames s, n ≠ "")
    (hne : pks ≠ [])
    (hsub : ∀ pk ∈ pks, pk ∈ getFieldNames s)
    (hnc : ∀ pk ∈ pks, ',' ∉ pk.data) :
    ∃ s2, withPrimaryKeys s pks = Except.ok s2 ∧
      getPrimaryKeys s2 = some pks ∧
      s2.fields = s.fields ∧
      s2.metadata = metaPut s.metadata primaryKeysMetaKey (pyJoinOn ',' pks) := by
  have _hnodup := hnodup
  have hfind : pks.find? (fun pk => !((getFieldNames s).contains pk)) = none := by
    rw [List.find?_eq_none]
    intro pk hpk
    simpa using hsub pk hpk
  refine ⟨{ s with metadata := metaPut s.metadata primaryKeysMetaKey (pyJoinOn ',' pks) },
          ?_, ?_, rfl, rfl⟩
  · unfold withPrimaryKeys
    rw [hfind]
  · have hpk_nonempty : ∀ pk ∈ pks, pk ≠ "" := by
      intro pk hpk
      exact hnames pk (hsub pk hpk)
    have hjoin := pyJoinOn_data_ne_nil pks hne hnc hpk_nonempty
    unfold getPrimaryKeys
    rw [if_neg (by simp [metaPut_isEmpty_false])]
    rw [metaGet_metaPut]
    show (if (pyJoinOn ',' pks).data.isEmpty = true then none
          else some (pySplitOn (pyJoinOn ',' pks) ',')) = some pks
    rw [if_neg (by simp [List.isEmpty_iff, hjoin])]
    rw [pySplitOn_pyJoinOn pks hne hnc]

/-- Witness for C4: a concrete two-field schema with primary key list
["k"] round-trips exactly. -/
theorem C4_witness :
    ∃ s2, withPrimaryKeys ⟨[⟨"k", "int64", false⟩, ⟨"v", "string", true⟩], []⟩ ["k"]
        = Except.ok s2 ∧
      getPrimaryKeys s2 = some ["k"] ∧
      s2.fields = [⟨"k", "int64", false⟩, ⟨"v", "string", true⟩] ∧
      s2.metadata = metaPut [] primaryKeysMetaKey (pyJoinOn ',' ["k"]) :=
  C4_primary_key_roundtrip ⟨[⟨"k", "int64", false⟩, ⟨"v", "string", true⟩], []⟩
    ["k"] (by decide) (by decide) (by decide) (by decide) (by decide)

/-- Claim C5 (counterexample): the claim says every sequence of
`close()` calls ends disconnected with the process/bridge handles
cleared, but when `gateway.shutdown()` raises, the outer except clause
swallows the error before `_is_connected = False` is reached: one
`close()` call on a fully connected state leaves the connection still
marked connected with the gateway and process handles set. -/
theorem C5_counterexample :
    connClose ⟨true, false⟩ ⟨true, true, true, true, true⟩ =
      ⟨false, true, true, true, true⟩ ∧
    (connClose ⟨true, false⟩ ⟨true, true, true, true, true⟩).isConnected = true ∧
    (connClose ⟨true, false⟩ ⟨true, true, true, true, true⟩).gateway = true := by
  refine ⟨rfl, rfl, rfl⟩

/-- Claim C5 (amended): `close()` never raises (internal teardown
failures are swallowed) and is idempotent — for every fixed failure
environment and every connection state, N calls (N >= 1) produce the
same final state as one call.  When `close()` runs on a connected state
and both the bridge shutdown and the process stop succeed, the final
state is disconnected with all handles cleared; when a teardown step
fails, the remaining handles and the connected flag may stay set. -/
theorem C5_close_idempotent (env : CloseEnv) (s : ConnState) (n : Nat)
    (hn : 1 ≤ n) :
    connCloseN env n s = connClose env s ∧
    (s.isConnected = true → env.gatewayShutdownFails = false →
      env.processStopFails = false →
      connClose env s = ⟨false, false, false, false, false⟩) := by
  constructor
  · obtain ⟨k, rfl⟩ : ∃ k, n = k + 1 := ⟨n - 1, by omega⟩
    exact connCloseN_succ env k s
  · intro h1 h2 h3
    cases env with
    | mk g p =>
      cases s with
      | mk a b c d e =>
        simp only at h1 h2 h3
        subst h1 h2 h3
        cases a <;> cases b <;> cases c <;> cases d <;> rfl

/-- Witness for C5: two `close()` calls on a fully connected state with
succeeding teardown equal one call, and that call clears everything. -/
theorem C5_witness :
    connCloseN ⟨false, false⟩ 2 ⟨true, true, true, true, true⟩ =
      connClose ⟨false, false⟩ ⟨true, true, true, true, true⟩ ∧
    ((true : Bool) = true → (false : Bool) = false → (false : Bool) = false →
      connClose ⟨false, false⟩ ⟨true, true, true, true, true⟩ =
        ⟨false, false, false, false, false⟩) :=
  C5_close_idempotent ⟨false, false⟩ ⟨true, true, true, true, true⟩ 2 (by decide)

/-- Claim C6: on a connected handle, `list_databases` and `list_tables`
always return a Python list of strings and never propagate an
exception: the retry-wrapped remote call failing yields `[]` (outer
except), the iterator-style walk failing falls back to direct
iteration, and that failing too yields `[]`. -/
theorem C6_list_ops_never_raise (env : AdminListEnv) (databaseName : String) :
    listDatabases env =
      (if env.opFails then []
       else if env.iteratorFails then
         (if env.directIterFails then [] else env.items)
       else env.items) ∧
    listTables databaseName env =
      (if env.opFails then []
       else if env.iteratorFails then
         (if env.directIterFails then [] else env.items)
       else env.items) := by
  cases env with
  | mk items o i d =>
    cases o <;> cases i <;> cases d <;> exact ⟨rfl, rfl⟩

/-- Claim C7: every type tag whose uppercase form is outside the
recognized set (the exact-name lists and the TIMESTAMP/DECIMAL prefix
families) is mapped to the remote STRING type by
`_map_type_to_fluss_datatype`, and no error is raised (the function
totally returns a value). -/
theorem C7_unknown_tag_defaults_to_string (colType : String)
    (hmem : pyUpper colType ∉
      ["STRING", "VARCHAR", "INT64", "BIGINT", "LONG", "INT32", "INT",
       "INTEGER", "FLOAT64", "DOUBLE", "FLOAT", "FLOAT32", "BOOL", "BOOLEAN"])
    (hts : pyStartsWith (pyUpper colType) "TIMESTAMP" = false)
    (hdec : pyStartsWith (pyUpper colType) "DECIMAL" = false) :
    mapTypeToFlussDatatype colType = FlussDataType.STRING := by
  unfold mapTypeToFlussDatatype
  simp only [List.mem_cons, List.mem_singleton, not_or, List.not_mem_nil] at hmem
  obtain ⟨h1, h2, h3, h4, h5, h6, h7, h8, h9, h10, h11, h12, h13, h14⟩ := hmem
  simp [h1, h2, h3, h4, h5, h6, h7, h8, h9, h10, h11, h12, h13, h14, hts, hdec]

/-- Witness for C7: the concrete unknown tag "FANCYTYPE" maps to
STRING. -/
theorem C7_witness :
    mapTypeToFlussDatatype "FANCYTYPE" = FlussDataType.STRING :=
  C7_unknown_tag_defaults_to_string "FANCYTYPE" (by decide) (by decide) (by decide)

/-- Claim C8: `_get_max_workers` rejects a configured value v <= 0 with
a `ValueError` (which propagates out of the `FlussTableRead`
constructor, so no reader is built), accepts v > 0 unchanged, and
defaults to 1 when the option is absent. -/
theorem C8_max_workers_admission (opts : List (String × Int)) (v : Int) :
    (catalogLookup opts MAX_WORKERS_KEY = some v →
      (v ≤ 0 → getMaxWorkers opts =
        Except.error "max_workers must be greater than 0") ∧
      (0 < v → getMaxWorkers opts = Except.ok v)) ∧
    (catalogLookup opts MAX_WORKERS_KEY = none →
      getMaxWorkers opts = Except.ok 1) ∧
    flussTableReadInitWorkers opts = getMaxWorkers opts := by
  refine ⟨?_, ?_, rfl⟩
  · intro hv
    unfold getMaxWorkers
    rw [hv]
    simp only [Option.getD_some]
    constructor
    · intro hle
      rw [if_pos hle]
    · intro hpos
      rw [if_neg (by omega)]
  · intro hnone
    unfold getMaxWorkers
    rw [hnone]
    rfl

/-- Witness for C8: a configured value 5 is accepted unchanged, a
configured value 0 is rejected, and an absent option defaults to 1. -/
theorem C8_witness :
    getMaxWorkers [("max-workers", 5)] = Except.ok 5 ∧
    getMaxWorkers [("max-workers", 0)] =
      Except.error "max_workers must be greater than 0" ∧
    getMaxWorkers [] = Except.ok 1 :=
  ⟨((C8_max_workers_admission [("max-workers", 5)] 5).1 (by decide)).2 (by decide),
   ((C8_max_workers_admission [("max-workers", 0)] 0).1 (by decide)).1 (by decide),
   (C8_max_workers_admission [] 0).2.1 (by decide)⟩

/-- Claim C9: `drop_database` and `drop_table` ignore their `if_exists`
argument — the remote drop invocation always receives the hard-coded
ignore-if-not-exists argument `False` (and `drop_database` additionally
hard-codes `cascade = False`), so two calls differing only in
`if_exists` pass the same remote arguments and return the same
result. -/
theorem C9_if_exists_has_no_effect (remote : Except String Unit)
    (databaseName tableName : String) (b1 b2 : Bool) :
    dropDatabase remote databaseName b1 = dropDatabase remote databaseName b2 ∧
    (dropDatabase remote databaseName b1).2 = (databaseName, false, false) ∧
    dropTable remote databaseName tableName b1 =
      dropTable remote databaseName tableName b2 ∧
    (dropTable remote databaseName tableName b1).2 =
      ((databaseName, tableName), false) :=
  ⟨rfl, rfl, rfl, rfl⟩

/-- Claim C10: once a data writer or data reader is closed, every data
operation raises the closed-handle `RuntimeError` without issuing a
remote call (the second component records whether the remote call was
made); `close()` itself is total, always (re)setting the flag to
closed, and no operation ever resets the closed flag. -/
theorem C10_closed_handle_discipline {row : Type}
    (remoteCount : Except String Int)
    (remoteBatch : Except String (List row))
    (batches : List (Except String (List row))) (limit : Int) :
    writeRow true remoteCount = (Except.error "Writer has been closed", false) ∧
    writeRows true remoteCount = (Except.error "Writer has been closed", false) ∧
    writerFlush true = (Except.error "Writer has been closed", false) ∧
    readRow true remoteBatch =
      ((Except.error "Reader has been closed" : Except String (Option row)), false) ∧
    readRows true limit remoteBatch =
      ((Except.error "Reader has been closed" : Except String (List row)), false) ∧
    readAll true batches =
      ((Except.error "Reader has been closed" : Except String (List row)), false) ∧
    (∀ c : Bool, writerClose c = true) ∧
    (∀ c : Bool, readerClose c = true) ∧
    (∀ op : WriterOp, writerStep op true = true) ∧
    (∀ op : ReaderOp, readerStep op true = true) := by
  refine ⟨rfl, rfl, rfl, rfl, rfl, rfl, fun _ => rfl, fun _ => rfl, ?_, ?_⟩
  · intro op
    cases op <;> rfl
  · intro op
    cases op <;> rfl
